import Mathlib

/-!
Verification of the PackagingAssistant packing-optimization engine.

The definitions below are a shallow embedding of the Python source in
`src/packassist/optimizer.py` and `src/packassist/stp_loader.py`.
Linear dimensions are rationals (millimetres), counts are integers, and
Python's `math.floor` on a nonnegative value becomes `Int.floor` on `ℚ`.
The external 3D placement solver (`py3dbp_enhanced`) is an external
collaborator per the design: its packed-item list enters the embedding as
an explicit argument (`solverItems`).
-/

/-- Axis-aligned bounding-box dimensions, as in the `box_dims` / `obj_dims`
dictionaries of `optimizer.py`. -/
structure Dims where
  length : ℚ
  width : ℚ
  height : ℚ
deriving DecidableEq, Repr

/-- The closed set of shape classifications used by `stp_loader.py`. -/
inductive ShapeType where
  | rectangular
  | hexagonal
  | octagonal
  | pentagonal
  | triangular
  | cylindrical
  | spherical
  | elliptical
  | conical
  | complexCurved
  | circular
  | polygonal
  | unknown
deriving DecidableEq, Repr

/-- `get_shape_packing_efficiency` from `stp_loader.py` (lines 521-541): the
fixed table of packing-efficiency factors; shape types absent from the
dictionary (e.g. `polygonal`) fall back to the default `0.75`. -/
def get_shape_packing_efficiency : ShapeType → ℚ
  | .rectangular => 1
  | .hexagonal => 9/10
  | .octagonal => 85/100
  | .pentagonal => 8/10
  | .triangular => 75/100
  | .cylindrical => 7/10
  | .spherical => 64/100
  | .elliptical => 7/10
  | .conical => 6/10
  | .complexCurved => 65/100
  | .circular => 7/10
  | .polygonal => 75/100
  | .unknown => 75/100

/-- `combined_efficiency` in `calculate_grid_packing` (optimizer.py line 349):
the mean of the object's and the container's packing-efficiency factors. -/
def combined_efficiency (objShape boxShape : ShapeType) : ℚ :=
  (get_shape_packing_efficiency objShape + get_shape_packing_efficiency boxShape) / 2

/-- One per-axis fit count: `math.floor(box_axis / obj_axis) if obj_axis > 0
else 0` (optimizer.py lines 373-375 and 443-445). -/
def fitCount (boxAxis objAxis : ℚ) : ℤ :=
  if 0 < objAxis then Int.floor (boxAxis / objAxis) else 0

/-- The fixed enumeration of the 6 axis permutations of the object
(optimizer.py lines 357-364), in source order. -/
def gridOrientations (d : Dims) : List (ℚ × ℚ × ℚ) :=
  [(d.length, d.width, d.height),
   (d.length, d.height, d.width),
   (d.width, d.length, d.height),
   (d.width, d.height, d.length),
   (d.height, d.length, d.width),
   (d.height, d.width, d.length)]

/-- `grid_count` for one orientation: the product of the three per-axis fits
(optimizer.py line 378). -/
def rawGridCount (box : Dims) (o : ℚ × ℚ × ℚ) : ℤ :=
  fitCount box.length o.1 * fitCount box.width o.2.1 * fitCount box.height o.2.2

/-- `adjusted_count` for one orientation: `math.floor(grid_count *
combined_efficiency)` (optimizer.py line 381). -/
def adjustedCount (box : Dims) (eff : ℚ) (o : ℚ × ℚ × ℚ) : ℤ :=
  Int.floor ((rawGridCount box o : ℚ) * eff)

/-- The best-so-far loop of `calculate_grid_packing` (optimizer.py lines
366-389): starting from `max_count = 0`, `best_orientation = None`, an
orientation replaces the best exactly when its adjusted count is strictly
greater. -/
def gridFold (box : Dims) (eff : ℚ) :
    List (ℚ × ℚ × ℚ) → ℤ × Option (ℚ × ℚ × ℚ) → ℤ × Option (ℚ × ℚ × ℚ)
  | [], acc => acc
  | o :: rest, (m, b) =>
      if adjustedCount box eff o > m then gridFold box eff rest (adjustedCount box eff o, some o)
      else gridFold box eff rest (m, b)

/-- The result dictionary of `calculate_grid_packing` (the fields the engine
consumes downstream). -/
structure GridResult where
  max_objects : ℤ
  best_orientation : Option (ℚ × ℚ × ℚ)
  packing_efficiency : ℚ
deriving DecidableEq, Repr

/-- `calculate_grid_packing` (optimizer.py lines 326-425): the analytic grid
estimate over the 6 axis permutations with the combined packing efficiency. -/
def calculate_grid_packing (box obj : Dims) (objShape boxShape : ShapeType) : GridResult :=
  { max_objects :=
      (gridFold box (combined_efficiency objShape boxShape) (gridOrientations obj) (0, none)).1,
    best_orientation :=
      (gridFold box (combined_efficiency objShape boxShape) (gridOrientations obj) (0, none)).2,
    packing_efficiency := combined_efficiency objShape boxShape }

/-- The item-count budget chosen by `optimize_packing` when called with
`max_attempts=None` (optimizer.py lines 43-62): `MAX_REAL_ITEMS` is
`min(200, grid_max)` when the grid estimate exceeds 500 and `grid_max`
otherwise, then the budget is `max(min(MAX_REAL_ITEMS, 500), 50)`. -/
def optimize_packing_max_attempts (gridMax : ℤ) : ℤ :=
  let maxRealItems := if gridMax > 500 then min 200 gridMax else gridMax
  max (min maxRealItems 500) 50

/-- `calculate_theoretical_max` (optimizer.py lines 287-324): floor of the
ratio of factor-scaled real volumes, 0 when the object's real volume is not
positive. -/
def calculate_theoretical_max (box obj : Dims) (boxFactor objFactor : ℚ) : ℤ :=
  let box_volume := box.width * box.height * box.length
  let obj_bounding_volume := obj.width * obj.height * obj.length
  let real_box_volume := box_volume * boxFactor
  let real_obj_volume := obj_bounding_volume * objFactor
  if 0 < real_obj_volume then Int.floor (real_box_volume / real_obj_volume) else 0

/-- One placed item of the output layout: the fields of the per-item dict
built in optimizer.py lines 254-261 that carry geometric content. -/
structure PlacedItem where
  pos : ℚ × ℚ × ℚ
  dims : ℚ × ℚ × ℚ
  rotation_type : ℕ
deriving DecidableEq, Repr

/-- `_generate_grid_layout` (optimizer.py lines 430-488): one item per grid
cell of the best orientation, nested loops `z` (height), `y` (width), `x`
(length), at position `(x*obj_l, y*obj_w, z*obj_h)` with rotation 0. -/
def generate_grid_layout (box : Dims) (o : ℚ × ℚ × ℚ) : List PlacedItem :=
  let fl := (fitCount box.length o.1).toNat
  let fw := (fitCount box.width o.2.1).toNat
  let fh := (fitCount box.height o.2.2).toNat
  (List.range fh).flatMap fun z =>
    (List.range fw).flatMap fun y =>
      (List.range fl).map fun (x : ℕ) =>
        { pos := ((x : ℚ) * o.1, (y : ℚ) * o.2.1, (z : ℚ) * o.2.2),
          dims := o, rotation_type := 0 }

/-- Python's banker's rounding of a rational to the nearest integer
(ties to the even integer), as used by `round(x, 2)`. -/
def roundHalfEven (q : ℚ) : ℤ :=
  if q - ⌊q⌋ < 1/2 then ⌊q⌋
  else if 1/2 < q - ⌊q⌋ then ⌊q⌋ + 1
  else if Even ⌊q⌋ then ⌊q⌋ else ⌊q⌋ + 1

/-- Python's `round(x, 2)` on exact rationals. -/
def round2 (q : ℚ) : ℚ := (roundHalfEven (q * 100) : ℚ) / 100

/-- The result dictionary returned by `optimize_packing`
(optimizer.py lines 268-285). -/
structure PackResult where
  max_objects : ℤ
  efficiency : ℚ
  box_volume : ℚ
  used_volume : ℚ
  placements : List PlacedItem
  error : Option String
deriving DecidableEq, Repr

/-- The result-aggregation tail of `optimize_packing` (optimizer.py lines
199-275): `packed_items` is the length of the solver's packed-item list,
the grid estimate wins when strictly greater, in which case the placement
list is synthesized by `_generate_grid_layout`; metrics are computed from
`final_count` and the object's bounding-box volume and rounded to two
decimals; `error` is `None` on this path.  The object's `volume_factor`
(read at optimizer.py line 22) is passed through because the source extracts
it, but it is used only in console output, never in the returned metrics.
If the grid won with `best_orientation = None`, the source would build a
`None` bin and crash at `box.items`, landing in the outer `except` handler
(lines 277-285); that branch is modeled by the error result. -/
def optimize_packing_result (box obj : Dims) (objShape boxShape : ShapeType)
    (objVolumeFactor : ℚ) (solverItems : List PlacedItem) : PackResult :=
  let grid := calculate_grid_packing box obj objShape boxShape
  let packed : ℤ := solverItems.length
  let box_volume := box.width * box.height * box.length
  let obj_volume := obj.width * obj.height * obj.length
  if grid.max_objects > packed then
    match grid.best_orientation with
    | none =>
        { max_objects := 0, efficiency := 0, box_volume := 0, used_volume := 0,
          placements := [], error := some "AttributeError: NoneType has no attribute items" }
    | some o =>
        let used := (grid.max_objects : ℚ) * obj_volume
        let eff := if 0 < box_volume then used / box_volume * 100 else 0
        { max_objects := grid.max_objects, efficiency := round2 eff,
          box_volume := round2 box_volume, used_volume := round2 used,
          placements := generate_grid_layout box o, error := none }
  else
    let used := (packed : ℚ) * obj_volume
    let eff := if 0 < box_volume then used / box_volume * 100 else 0
    { max_objects := packed, efficiency := round2 eff,
      box_volume := round2 box_volume, used_volume := round2 used,
      placements := solverItems, error := none }

/-- The outer `try/except` of `optimize_packing` (optimizer.py lines 14 and
277-285): a normal result is returned as is; any exception raised inside is
converted to a zero-count result carrying the exception text, never
propagated. -/
def optimize_packing_guarded (r : Except String PackResult) : PackResult :=
  match r with
  | .ok res => res
  | .error e =>
      { max_objects := 0, efficiency := 0, box_volume := 0, used_volume := 0,
        placements := [], error := some e }

/-! ## The STP dimension extractor (`stp_loader.py`) -/

/-- A nonnegative decimal numeral as matched by the regex fragment
`\d+(?:\.\d+)?`: integer part, fractional digits value and fractional digit
count.  The regex admits `0`, `0.0`, etc., so the value may be zero. -/
structure Decimal where
  ip : ℕ
  fp : ℕ
  fd : ℕ
deriving DecidableEq, Repr

/-- The rational value of a matched decimal numeral. -/
def Decimal.val (d : Decimal) : ℚ := (d.ip : ℚ) + (d.fp : ℚ) / 10 ^ d.fd

/-- The dimension dictionary returned by `get_stp_dimensions`. -/
structure StpDims where
  length : ℚ
  width : ℚ
  height : ℚ
  shape_type : ShapeType
  volume_factor : ℚ
deriving DecidableEq, Repr

/-- The `complex_patterns` filename vocabulary of `get_stp_dimensions`
(stp_loader.py lines 65-78). -/
inductive ComplexPattern where
  | hexagon
  | triangle
  | cylinder
  | sphere
  | cone
  | octagon
  | pentagon
  | caixaPetita
  | boxSmall
  | boxMedium
  | boxLarge
deriving DecidableEq, Repr

/-- The fixed dimension entries of the `complex_patterns` table
(stp_loader.py lines 65-78); `173.2 = 866/5`, `190.2 = 951/5`. -/
def patternDims : ComplexPattern → StpDims
  | .hexagon => ⟨200, 866/5, 100, .hexagonal, 866/1000⟩
  | .triangle => ⟨200, 866/5, 100, .triangular, 1/2⟩
  | .cylinder => ⟨200, 200, 150, .cylindrical, 785/1000⟩
  | .sphere => ⟨150, 150, 150, .spherical, 524/1000⟩
  | .cone => ⟨100, 100, 150, .conical, 262/1000⟩
  | .octagon => ⟨200, 183, 100, .octagonal, 828/1000⟩
  | .pentagon => ⟨200, 951/5, 100, .pentagonal, 688/1000⟩
  | .caixaPetita => ⟨200, 150, 100, .rectangular, 1⟩
  | .boxSmall => ⟨200, 150, 100, .rectangular, 1⟩
  | .boxMedium => ⟨400, 300, 200, .rectangular, 1⟩
  | .boxLarge => ⟨800, 600, 400, .rectangular, 1⟩

/-- The file-size fallback of `get_stp_dimensions` (stp_loader.py lines
85-94): `base = 50 + file_size % 500`, dimensions `(2, 1.5, 1) * base`,
shape `unknown`, factor `0.8`. -/
def sizeFallbackDims (size : ℕ) : StpDims :=
  let base : ℚ := ((50 + size % 500 : ℕ) : ℚ)
  ⟨base * 2, base * (3/2), base, .unknown, 8/10⟩

/-- The outcome of the shape-indicator scan of `_analyze_stp_geometry`
(stp_loader.py lines 344-384) when no Cartesian points were found:
which of the three dimension-shaping branches is taken.  `otherOrNone`
covers both an empty indicator set and indicator sets (e.g. conical only)
that match none of the three branches, all of which reach the default
fallback of lines 386-392. -/
inductive StpContentGeom where
  | cylindricalOrCircular
  | sphericalOnly
  | complexCurve
  | otherOrNone
deriving DecidableEq, Repr

/-- Largest element of a nonempty list of rationals (Python `max`). -/
def listMax (x : ℚ) (l : List ℚ) : ℚ := l.foldl max x

/-- Smallest element of a nonempty list of rationals (Python `min`). -/
def listMin (x : ℚ) (l : List ℚ) : ℚ := l.foldl min x

/-- The point-cloud bounding box of `_analyze_stp_geometry` (stp_loader.py
lines 313-327): per-axis `max - min` over all Cartesian points, each axis
floored at a minimum of `1.0`. -/
def pointCloudDims (p : ℚ × ℚ × ℚ) (rest : List (ℚ × ℚ × ℚ)) : Dims :=
  let xs := rest.map (·.1)
  let ys := rest.map (·.2.1)
  let zs := rest.map (·.2.2)
  { length := max (listMax p.1 xs - listMin p.1 xs) 1,
    width := max (listMax p.2.1 ys - listMin p.2.1 ys) 1,
    height := max (listMax p.2.2 zs - listMin p.2.2 zs) 1 }

/-- `_analyze_stp_geometry` (stp_loader.py lines 304-402): the bounding box
of the Cartesian points when any exist, otherwise shape-indicator based
estimates from the file size (`base_dim = 50 + size % 300` for the indicator
branches, `base_size = 50 + size % 200` for the default). -/
def analyze_stp_geometry (pts : List (ℚ × ℚ × ℚ)) (geom : StpContentGeom) (size : ℕ) : Dims :=
  match pts with
  | p :: rest => pointCloudDims p rest
  | [] =>
    match geom with
    | .cylindricalOrCircular =>
        let b : ℚ := ((50 + size % 300 : ℕ) : ℚ)
        { length := b * (3/2), width := b * (3/2), height := b * 2 }
    | .sphericalOnly =>
        let d : ℚ := ((50 + size % 300 : ℕ) : ℚ) * (6/5)
        { length := d, width := d, height := d }
    | .complexCurve =>
        let b : ℚ := ((50 + size % 300 : ℕ) : ℚ)
        { length := b * (9/5), width := b * (13/10), height := b * (11/10) }
    | .otherOrNone =>
        let b : ℚ := ((50 + size % 200 : ℕ) : ℚ)
        { length := b * 2, width := b * (3/2), height := b }

/-- The geometry source as visible to `get_stp_dimensions`: existence, byte
size, whether the filename encodes `LxWxH` dimensions, whether the file has
an `.stp`/`.step` extension and is readable, an optional dimensions comment,
the Cartesian points and shape indicators of the content, the shape
classification computed by `_detect_shape_type_from_content`, and the
matched `complex_patterns` entry if any. -/
structure FileModel where
  present : Bool
  size : ℕ
  filenameDims : Option (Decimal × Decimal × Decimal)
  isStpExt : Bool
  readable : Bool
  commentDims : Option (Decimal × Decimal × Decimal)
  points : List (ℚ × ℚ × ℚ)
  contentGeom : StpContentGeom
  contentShape : ShapeType
  contentShapeFactor : ℚ
  patternMatch : Option ComplexPattern
deriving DecidableEq, Repr

/-- `get_stp_dimensions` (stp_loader.py lines 14-98): `None` for a missing
file; otherwise, in priority order: filename-encoded dimensions, the
metadata comment, advanced geometry analysis (readable `.stp`/`.step`
only — an unreadable one falls through, its exception caught at line 61),
the name-pattern table, and the file-size fallback.  Every branch after the
existence check produces a dictionary. -/
def get_stp_dimensions (f : FileModel) : Option StpDims :=
  if f.present = false then none
  else
    match f.filenameDims with
    | some (a, b, c) =>
        some ⟨a.val, b.val, c.val, .rectangular, 1⟩
    | none =>
        if f.isStpExt && f.readable then
          match f.commentDims with
          | some (a, b, c) => some ⟨a.val, b.val, c.val, .rectangular, 1⟩
          | none =>
              let dims := analyze_stp_geometry f.points f.contentGeom f.size
              some ⟨dims.length, dims.width, dims.height, f.contentShape, f.contentShapeFactor⟩
        else
          match f.patternMatch with
          | some p => some (patternDims p)
          | none => some (sizeFallbackDims f.size)

/-! ## The point-cloud shape classifier (`stp_loader.py` lines 607-666) -/

/-- `cross_product` inside `_compute_convex_hull` (stp_loader.py lines
643-644). -/
def cross2d (o a b : ℚ × ℚ) : ℚ :=
  (a.1 - o.1) * (b.2 - o.2) - (a.2 - o.2) * (b.1 - o.1)

/-- Insertion into a lexicographically sorted duplicate-free list; folding
this over the input implements Python's `sorted(set(points))`. -/
def insertPt (p : ℚ × ℚ) : List (ℚ × ℚ) → List (ℚ × ℚ)
  | [] => [p]
  | q :: rest =>
      if p = q then q :: rest
      else if p.1 < q.1 ∨ (p.1 = q.1 ∧ p.2 < q.2) then p :: q :: rest
      else q :: insertPt p rest

/-- Python's `sorted(set(points))`: the lexicographically sorted list of the
distinct points. -/
def sortedUnique (l : List (ℚ × ℚ)) : List (ℚ × ℚ) := l.foldr insertPt []

/-- One step of the monotone-chain half-hull loop (stp_loader.py lines
652-657 and 660-664): pop while the last two chain points and the new point
make a non-left turn, then push the new point.  The chain is kept in
reversed order (most recent point first). -/
def chainStep (acc : List (ℚ × ℚ)) (p : ℚ × ℚ) : List (ℚ × ℚ) :=
  match acc with
  | b :: a :: rest =>
      if cross2d a b p ≤ 0 then chainStep (a :: rest) p
      else p :: b :: a :: rest
  | _ => p :: acc

/-- Build one half hull (reversed order) by folding `chainStep` over the
point sequence. -/
def buildHalfHull (pts : List (ℚ × ℚ)) : List (ℚ × ℚ) := pts.foldl chainStep []

/-- `_compute_convex_hull` (stp_loader.py lines 635-666): inputs with fewer
than 3 points are returned as given; otherwise Andrew's monotone chain over
`sorted(set(points))`, returning `lower[:-1] + upper[:-1]`. -/
def compute_convex_hull (points : List (ℚ × ℚ)) : List (ℚ × ℚ) :=
  if points.length < 3 then points
  else
    let pts := sortedUnique points
    if pts.length ≤ 1 then pts
    else
      let lower := buildHalfHull pts
      let upper := buildHalfHull pts.reverse
      lower.tail.reverse ++ upper.tail.reverse

/-- `_detect_polygon_from_points` (stp_loader.py lines 607-633): fewer than
6 points default to rectangular; otherwise classification by the convex-hull
vertex count. -/
def detect_polygon_from_points (points : List (ℚ × ℚ)) : ShapeType × ℚ :=
  if points.length < 6 then (.rectangular, 1)
  else
    let n := (compute_convex_hull points).length
    if n ≤ 4 then (.rectangular, 1)
    else if n = 5 then (.pentagonal, 688/1000)
    else if n = 6 then (.hexagonal, 866/1000)
    else if n = 8 then (.octagonal, 828/1000)
    else if 12 ≤ n then (.circular, 785/1000)
    else (.polygonal, 75/100)

/-! ## Supporting lemmas -/

lemma get_shape_packing_efficiency_pos (s : ShapeType) :
    0 < get_shape_packing_efficiency s := by
  cases s <;> norm_num [get_shape_packing_efficiency]

lemma get_shape_packing_efficiency_le_one (s : ShapeType) :
    get_shape_packing_efficiency s ≤ 1 := by
  cases s <;> norm_num [get_shape_packing_efficiency]

lemma combined_efficiency_pos (a b : ShapeType) : 0 < combined_efficiency a b := by
  have ha := get_shape_packing_efficiency_pos a
  have hb := get_shape_packing_efficiency_pos b
  unfold combined_efficiency
  linarith

lemma combined_efficiency_le_one (a b : ShapeType) : combined_efficiency a b ≤ 1 := by
  have ha := get_shape_packing_efficiency_le_one a
  have hb := get_shape_packing_efficiency_le_one b
  unfold combined_efficiency
  linarith

lemma fitCount_nonneg (boxAxis objAxis : ℚ) (h : 0 ≤ boxAxis) : 0 ≤ fitCount boxAxis objAxis := by
  unfold fitCount
  split
  · exact Int.floor_nonneg.mpr (div_nonneg h (le_of_lt (by assumption)))
  · exact le_refl 0

lemma rawGridCount_nonneg (box : Dims) (o : ℚ × ℚ × ℚ)
    (hl : 0 ≤ box.length) (hw : 0 ≤ box.width) (hh : 0 ≤ box.height) :
    0 ≤ rawGridCount box o := by
  unfold rawGridCount
  exact mul_nonneg (mul_nonneg (fitCount_nonneg _ _ hl) (fitCount_nonneg _ _ hw))
    (fitCount_nonneg _ _ hh)

lemma adjustedCount_nonneg (box : Dims) (eff : ℚ) (o : ℚ × ℚ × ℚ)
    (hl : 0 ≤ box.length) (hw : 0 ≤ box.width) (hh : 0 ≤ box.height) (he : 0 ≤ eff) :
    0 ≤ adjustedCount box eff o := by
  unfold adjustedCount
  have : (0 : ℚ) ≤ (rawGridCount box o : ℚ) * eff := by
    have := rawGridCount_nonneg box o hl hw hh
    positivity
  exact Int.floor_nonneg.mpr this

/-- The count component of the best-so-far loop is a running maximum. -/
lemma gridFold_fst (box : Dims) (eff : ℚ) (l : List (ℚ × ℚ × ℚ)) :
    ∀ (m : ℤ) (b : Option (ℚ × ℚ × ℚ)),
      (gridFold box eff l (m, b)).1
        = l.foldl (fun acc o => max acc (adjustedCount box eff o)) m := by
  induction l with
  | nil => intro m b; rfl
  | cons o rest ih =>
      intro m b
      by_cases h : adjustedCount box eff o > m
      · rw [gridFold, if_pos h, ih]
        simp [max_eq_right (le_of_lt h)]
      · rw [gridFold, if_neg h, ih]
        simp [max_eq_left (not_lt.mp h)]

/-- If the loop never records an orientation, the count never changed. -/
lemma gridFold_snd_none (box : Dims) (eff : ℚ) (l : List (ℚ × ℚ × ℚ)) :
    ∀ (m : ℤ) (b : Option (ℚ × ℚ × ℚ)),
      (gridFold box eff l (m, b)).2 = none →
        b = none ∧ (gridFold box eff l (m, b)).1 = m := by
  induction l with
  | nil => intro m b h; exact ⟨h, rfl⟩
  | cons o rest ih =>
      intro m b h
      by_cases hc : adjustedCount box eff o > m
      · rw [gridFold, if_pos hc] at h ⊢
        exact absurd (ih _ _ h).1 (by simp)
      · rw [gridFold, if_neg hc] at h ⊢
        exact ih _ _ h

/-- The recorded best orientation always carries the recorded count. -/
lemma gridFold_snd_count (box : Dims) (eff : ℚ) (l : List (ℚ × ℚ × ℚ)) :
    ∀ (m : ℤ) (b : Option (ℚ × ℚ × ℚ)),
      (∀ o, b = some o → m = adjustedCount box eff o) →
      ∀ o, (gridFold box eff l (m, b)).2 = some o →
        (gridFold box eff l (m, b)).1 = adjustedCount box eff o := by
  induction l with
  | nil =>
      intro m b hinv o h
      exact (hinv o h).symm ▸ rfl
  | cons p rest ih =>
      intro m b hinv o h
      by_cases hc : adjustedCount box eff p > m
      · rw [gridFold, if_pos hc] at h ⊢
        exact ih _ _ (by intro o' ho'; cases ho'; rfl) o h
      · rw [gridFold, if_neg hc] at h ⊢
        exact ih _ _ hinv o h

lemma foldl_max_init_le (f : ℚ × ℚ × ℚ → ℤ) (l : List (ℚ × ℚ × ℚ)) :
    ∀ m : ℤ, m ≤ l.foldl (fun acc o => max acc (f o)) m := by
  induction l with
  | nil => intro m; exact le_refl m
  | cons o rest ih =>
      intro m
      exact le_trans (le_max_left m (f o)) (ih (max m (f o)))

lemma foldl_max_el_le (f : ℚ × ℚ × ℚ → ℤ) (l : List (ℚ × ℚ × ℚ)) :
    ∀ m : ℤ, ∀ o ∈ l, f o ≤ l.foldl (fun acc o => max acc (f o)) m := by
  induction l with
  | nil => intro m o ho; cases ho
  | cons p rest ih =>
      intro m o ho
      rcases List.mem_cons.mp ho with h | h
      · subst h
        exact le_trans (le_max_right m (f o)) (foldl_max_init_le f rest _)
      · exact ih _ o h

lemma foldl_max_cases (f : ℚ × ℚ × ℚ → ℤ) (l : List (ℚ × ℚ × ℚ)) :
    ∀ m : ℤ, l.foldl (fun acc o => max acc (f o)) m = m ∨
      ∃ o ∈ l, l.foldl (fun acc o => max acc (f o)) m = f o := by
  induction l with
  | nil => intro m; exact Or.inl rfl
  | cons p rest ih =>
      intro m
      rw [List.foldl_cons]
      rcases ih (max m (f p)) with h | ⟨o, ho, h⟩
      · by_cases hc : f p ≤ m
        · rw [max_eq_left hc] at h ⊢
          exact Or.inl h
        · rw [max_eq_right (le_of_not_le hc)] at h ⊢
          exact Or.inr ⟨p, List.mem_cons_self p rest, h⟩
      · exact Or.inr ⟨o, List.mem_cons_of_mem p ho, h⟩

/-- The grid estimate is never negative (whenever the container axes are
nonnegative, as every physical request has). -/
lemma calculate_grid_packing_nonneg (box obj : Dims) (os bs : ShapeType)
    (hl : 0 ≤ box.length) (hw : 0 ≤ box.width) (hh : 0 ≤ box.height) :
    0 ≤ (calculate_grid_packing box obj os bs).max_objects := by
  unfold calculate_grid_packing
  rw [gridFold_fst]
  exact le_trans (le_refl 0) (foldl_max_init_le _ _ 0)

/-- If the grid estimate recorded no best orientation, it is 0. -/
lemma calculate_grid_packing_none (box obj : Dims) (os bs : ShapeType)
    (h : (calculate_grid_packing box obj os bs).best_orientation = none) :
    (calculate_grid_packing box obj os bs).max_objects = 0 := by
  unfold calculate_grid_packing at h ⊢
  exact (gridFold_snd_none _ _ _ 0 none h).2

/-- The recorded best orientation achieves the reported maximum. -/
lemma calculate_grid_packing_some (box obj : Dims) (os bs : ShapeType)
    (o : ℚ × ℚ × ℚ)
    (h : (calculate_grid_packing box obj os bs).best_orientation = some o) :
    (calculate_grid_packing box obj os bs).max_objects
      = adjustedCount box (combined_efficiency os bs) o := by
  unfold calculate_grid_packing at h ⊢
  exact gridFold_snd_count _ _ _ 0 none (by intro o' h'; cases h') o h

/-- Branch description: when the grid estimate strictly beats the solver
count and a best orientation exists, the result is grid-based with a
synthesized layout and no error. -/
lemma optimize_packing_result_grid_wins (box obj : Dims) (os bs : ShapeType) (vf : ℚ)
    (items : List PlacedItem) (o : ℚ × ℚ × ℚ)
    (hwin : (items.length : ℤ) < (calculate_grid_packing box obj os bs).max_objects)
    (hbo : (calculate_grid_packing box obj os bs).best_orientation = some o) :
    optimize_packing_result box obj os bs vf items =
      { max_objects := (calculate_grid_packing box obj os bs).max_objects,
        efficiency := round2 (if 0 < box.width * box.height * box.length then
          ((calculate_grid_packing box obj os bs).max_objects : ℚ)
              * (obj.width * obj.height * obj.length)
              / (box.width * box.height * box.length) * 100
          else 0),
        box_volume := round2 (box.width * box.height * box.length),
        used_volume := round2 (((calculate_grid_packing box obj os bs).max_objects : ℚ)
          * (obj.width * obj.height * obj.length)),
        placements := generate_grid_layout box o,
        error := none } := by
  simp only [optimize_packing_result]
  rw [if_pos (show (calculate_grid_packing box obj os bs).max_objects > (items.length : ℤ)
    from hwin), hbo]

/-- Branch description: when the solver count is at least the grid estimate
the result reports the solver's packed items verbatim. -/
lemma optimize_packing_result_solver_wins (box obj : Dims) (os bs : ShapeType) (vf : ℚ)
    (items : List PlacedItem)
    (h : (calculate_grid_packing box obj os bs).max_objects ≤ (items.length : ℤ)) :
    optimize_packing_result box obj os bs vf items =
      { max_objects := (items.length : ℤ),
        efficiency := round2 (if 0 < box.width * box.height * box.length then
          ((items.length : ℤ) : ℚ) * (obj.width * obj.height * obj.length)
              / (box.width * box.height * box.length) * 100
          else 0),
        box_volume := round2 (box.width * box.height * box.length),
        used_volume := round2 (((items.length : ℤ) : ℚ)
          * (obj.width * obj.height * obj.length)),
        placements := items,
        error := none } := by
  simp only [optimize_packing_result]
  rw [if_neg (not_lt.mpr h)]

/-- Claim C1: `optimize_packing` returns
`max_objects = max(grid_result.max_objects, packed_items)` (optimizer.py
lines 216-223), and in particular never reports less than the grid
estimate. -/
theorem optimize_packing_final_count_is_max (box obj : Dims) (os bs : ShapeType)
    (vf : ℚ) (solverItems : List PlacedItem) :
    (optimize_packing_result box obj os bs vf solverItems).max_objects
        = max (calculate_grid_packing box obj os bs).max_objects (solverItems.length : ℤ) ∧
    (calculate_grid_packing box obj os bs).max_objects
        ≤ (optimize_packing_result box obj os bs vf solverItems).max_objects := by
  have hmax :
      (optimize_packing_result box obj os bs vf solverItems).max_objects
        = max (calculate_grid_packing box obj os bs).max_objects (solverItems.length : ℤ) := by
    by_cases hwin :
        (solverItems.length : ℤ) < (calculate_grid_packing box obj os bs).max_objects
    · cases hbo : (calculate_grid_packing box obj os bs).best_orientation with
      | none =>
          have h0 := calculate_grid_packing_none box obj os bs hbo
          have : (0 : ℤ) ≤ (solverItems.length : ℤ) := Int.ofNat_nonneg _
          omega
      | some o =>
          rw [optimize_packing_result_grid_wins box obj os bs vf solverItems o hwin hbo]
          exact (max_eq_left (le_of_lt hwin)).symm
    · rw [optimize_packing_result_solver_wins box obj os bs vf solverItems (not_lt.mp hwin)]
      exact (max_eq_right (not_lt.mp hwin)).symm
  refine ⟨hmax, ?_⟩
  rw [hmax]
  exact le_max_left _ _

/-- Claim C3: the item budget passed to the solver when `max_attempts=None`
(optimizer.py lines 43-62): for a grid estimate above 500 it is
`min(200, grid_max)` (hence at most 200), otherwise `grid_max` floored at 50
and ceilinged at 500. -/
theorem optimize_packing_attempts_policy (g : ℤ) :
    (500 < g →
        optimize_packing_max_attempts g = min 200 g ∧ optimize_packing_max_attempts g ≤ 200) ∧
    (g ≤ 500 → optimize_packing_max_attempts g = min (max g 50) 500) := by
  simp only [optimize_packing_max_attempts]
  by_cases h : g > 500
  · rw [if_pos h]
    refine ⟨fun _ => ⟨?_, ?_⟩, fun hle => absurd h (not_lt.mpr hle)⟩ <;> omega
  · rw [if_neg h]
    rw [not_lt] at h
    exact ⟨fun hgt => absurd hgt (not_lt.mpr h), fun _ => by omega⟩

/-- Witness for C3 at grid estimates 600 (capping branch) and 30 (floor
branch). -/
theorem optimize_packing_attempts_policy_witness :
    (optimize_packing_max_attempts 600 = min 200 600 ∧ optimize_packing_max_attempts 600 ≤ 200)
    ∧ optimize_packing_max_attempts 30 = min (max 30 50) 500 :=
  ⟨(optimize_packing_attempts_policy 600).1 (by norm_num),
   (optimize_packing_attempts_policy 30).2 (by norm_num)⟩

/-- Claim C4 counterexample: for container 1000×800×600 and item 200×150×100
(combined efficiency 1.0) the source computes 160 — orientation
(200, 100, 150) fits 5·8·4 = 160 — not the 150 of the spec's worked
example. -/
theorem calculate_grid_packing_example_not_150 :
    (calculate_grid_packing ⟨1000, 800, 600⟩ ⟨200, 150, 100⟩
        .rectangular .rectangular).max_objects = 160 ∧
    (calculate_grid_packing ⟨1000, 800, 600⟩ ⟨200, 150, 100⟩
        .rectangular .rectangular).max_objects ≠ 150 := by
  norm_num [calculate_grid_packing, gridFold, gridOrientations, adjustedCount,
    rawGridCount, fitCount, combined_efficiency, get_shape_packing_efficiency]

/-- Claim C4 (amended): for strictly positive dimensions
`calculate_grid_packing` returns the maximum over the 6 axis permutations of
`floor(raw_count * combined_efficiency)` — every orientation is bounded by
the result and some orientation attains it — with ties broken by the first
orientation in the fixed enumeration order; for container 1000×800×600 and
item 200×150×100 the result is 160, first attained by orientation
(200, 100, 150), which is kept even though (100, 200, 150) later also
reaches 160. -/
theorem calculate_grid_packing_max_formula :
    (∀ (box obj : Dims) (os bs : ShapeType),
        0 < box.length → 0 < box.width → 0 < box.height →
        (∀ o ∈ gridOrientations obj,
            adjustedCount box (combined_efficiency os bs) o
              ≤ (calculate_grid_packing box obj os bs).max_objects) ∧
        (∃ o ∈ gridOrientations obj,
            adjustedCount box (combined_efficiency os bs) o
              = (calculate_grid_packing box obj os bs).max_objects)) ∧
    (calculate_grid_packing ⟨1000, 800, 600⟩ ⟨200, 150, 100⟩
        .rectangular .rectangular).max_objects = 160 ∧
    (calculate_grid_packing ⟨1000, 800, 600⟩ ⟨200, 150, 100⟩
        .rectangular .rectangular).best_orientation = some (200, 100, 150) := by
  refine ⟨?_, ?_, ?_⟩
  · intro box obj os bs hl hw hh
    have hfst : (calculate_grid_packing box obj os bs).max_objects
        = (gridOrientations obj).foldl
            (fun acc o => max acc (adjustedCount box (combined_efficiency os bs) o)) 0 :=
      gridFold_fst box (combined_efficiency os bs) (gridOrientations obj) 0 none
    constructor
    · intro o ho
      rw [hfst]
      exact foldl_max_el_le _ _ 0 o ho
    · rcases foldl_max_cases
          (fun o => adjustedCount box (combined_efficiency os bs) o)
          (gridOrientations obj) 0 with h | ⟨o, ho, h⟩
      · refine ⟨(obj.length, obj.width, obj.height), by simp [gridOrientations], ?_⟩
        have hle : adjustedCount box (combined_efficiency os bs)
            (obj.length, obj.width, obj.height)
              ≤ (calculate_grid_packing box obj os bs).max_objects := by
          rw [hfst]
          exact foldl_max_el_le _ _ 0 _ (by simp [gridOrientations])
        have hge : 0 ≤ adjustedCount box (combined_efficiency os bs)
            (obj.length, obj.width, obj.height) :=
          adjustedCount_nonneg box _ _ (le_of_lt hl) (le_of_lt hw) (le_of_lt hh)
            (le_of_lt (combined_efficiency_pos os bs))
        rw [hfst, h]
        rw [hfst, h] at hle
        omega
      · exact ⟨o, ho, by rw [hfst, h]⟩
  · exact calculate_grid_packing_example_not_150.1
  · norm_num [calculate_grid_packing, gridFold, gridOrientations, adjustedCount,
      rawGridCount, fitCount, combined_efficiency, get_shape_packing_efficiency]

/-- Witness for C4's amended theorem at the worked example: the first
orientation's adjusted count is bounded by the reported maximum. -/
theorem calculate_grid_packing_max_formula_witness :
    adjustedCount ⟨1000, 800, 600⟩ (combined_efficiency .rectangular .rectangular)
        (200, 150, 100)
      ≤ (calculate_grid_packing ⟨1000, 800, 600⟩ ⟨200, 150, 100⟩
          .rectangular .rectangular).max_objects :=
  (calculate_grid_packing_max_formula.1 ⟨1000, 800, 600⟩ ⟨200, 150, 100⟩
      .rectangular .rectangular (by norm_num) (by norm_num) (by norm_num)).1
    (200, 150, 100) (by simp [gridOrientations])

/-- Claim C8: `calculate_theoretical_max` is the floor of the ratio of
factor-scaled volumes; for a fixed container it never decreases when the
item's volume factor decreases; worked example: a 1000³ container (factor 1)
holds 1000 items of bounding box 100³ at factor 1 and 2000 at factor 0.5. -/
theorem calculate_theoretical_max_spec :
    (∀ (box obj : Dims) (bf f : ℚ),
        0 < obj.width * obj.height * obj.length * f →
        calculate_theoretical_max box obj bf f
          = ⌊box.width * box.height * box.length * bf
              / (obj.width * obj.height * obj.length * f)⌋) ∧
    (∀ (box obj : Dims) (bf f₁ f₂ : ℚ),
        0 ≤ box.width * box.height * box.length * bf →
        0 < obj.width * obj.height * obj.length →
        0 < f₂ → f₂ ≤ f₁ →
        calculate_theoretical_max box obj bf f₁ ≤ calculate_theoretical_max box obj bf f₂) ∧
    calculate_theoretical_max ⟨1000, 1000, 1000⟩ ⟨100, 100, 100⟩ 1 1 = 1000 ∧
    calculate_theoretical_max ⟨1000, 1000, 1000⟩ ⟨100, 100, 100⟩ 1 (1/2) = 2000 := by
  refine ⟨?_, ?_, ?_, ?_⟩
  · intro box obj bf f h
    simp only [calculate_theoretical_max]
    rw [if_pos h]
  · intro box obj bf f₁ f₂ hbox hobj hf₂ hle
    have hf₁ : 0 < f₁ := lt_of_lt_of_le hf₂ hle
    have h₁ : 0 < obj.width * obj.height * obj.length * f₁ := mul_pos hobj hf₁
    have h₂ : 0 < obj.width * obj.height * obj.length * f₂ := mul_pos hobj hf₂
    simp only [calculate_theoretical_max]
    rw [if_pos h₁, if_pos h₂]
    apply Int.floor_le_floor
    gcongr
  · norm_num [calculate_theoretical_max]
  · norm_num [calculate_theoretical_max]

/-- Witness for C8 at the worked example: monotonicity from factor 1 to 0.5
and the explicit floor formula, applied at concrete inputs. -/
theorem calculate_theoretical_max_spec_witness :
    calculate_theoretical_max ⟨1000, 1000, 1000⟩ ⟨100, 100, 100⟩ 1 1
      ≤ calculate_theoretical_max ⟨1000, 1000, 1000⟩ ⟨100, 100, 100⟩ 1 (1/2) ∧
    calculate_theoretical_max ⟨1000, 1000, 1000⟩ ⟨100, 100, 100⟩ 1 1
      = ⌊(1000 * 1000 * 1000 : ℚ) * 1 / (100 * 100 * 100 * 1)⌋ :=
  ⟨calculate_theoretical_max_spec.2.1 ⟨1000, 1000, 1000⟩ ⟨100, 100, 100⟩ 1 1 (1/2)
      (by norm_num) (by norm_num) (by norm_num) (by norm_num),
   calculate_theoretical_max_spec.1 ⟨1000, 1000, 1000⟩ ⟨100, 100, 100⟩ 1 1 (by norm_num)⟩

lemma round2_zero : round2 0 = 0 := by
  norm_num [round2, roundHalfEven]

/-- Claim C2 counterexample: for a 10×10×10 item of `volume_factor = 0.5`
packed alone into a 10×10×10 container, the source reports
`used_volume = 1000` — the bounding-box volume — not
`max_objects * (bounding volume * volume_factor) = 500`: the factor read at
optimizer.py line 22 never enters the metric computed at line 226. -/
theorem optimize_packing_used_volume_counterexample :
    (optimize_packing_result ⟨10, 10, 10⟩ ⟨10, 10, 10⟩
        .rectangular .rectangular (1/2) []).max_objects = 1 ∧
    (optimize_packing_result ⟨10, 10, 10⟩ ⟨10, 10, 10⟩
        .rectangular .rectangular (1/2) []).used_volume = 1000 ∧
    (optimize_packing_result ⟨10, 10, 10⟩ ⟨10, 10, 10⟩
        .rectangular .rectangular (1/2) []).used_volume
      ≠ ((optimize_packing_result ⟨10, 10, 10⟩ ⟨10, 10, 10⟩
          .rectangular .rectangular (1/2) []).max_objects : ℚ)
        * (10 * 10 * 10 * (1/2)) := by
  norm_num [optimize_packing_result, calculate_grid_packing, gridFold, gridOrientations,
    adjustedCount, rawGridCount, fitCount, combined_efficiency, get_shape_packing_efficiency,
    generate_grid_layout, round2, roundHalfEven, List.range_succ]

/-- Claim C2 (amended): for a positive container volume, the returned
`used_volume` is the rounded product of `max_objects` and the item's
bounding-box volume — the item's `volume_factor` is not applied — and
`efficiency` is that product divided by the container bounding-box volume
times 100, rounded to two decimals. -/
theorem optimize_packing_used_volume_formula (box obj : Dims) (os bs : ShapeType)
    (vf : ℚ) (items : List PlacedItem)
    (hbv : 0 < box.width * box.height * box.length) :
    (optimize_packing_result box obj os bs vf items).used_volume
      = round2 (((optimize_packing_result box obj os bs vf items).max_objects : ℚ)
          * (obj.width * obj.height * obj.length)) ∧
    (optimize_packing_result box obj os bs vf items).efficiency
      = round2 ((((optimize_packing_result box obj os bs vf items).max_objects : ℚ)
          * (obj.width * obj.height * obj.length))
          / (box.width * box.height * box.length) * 100) := by
  by_cases hwin : (items.length : ℤ) < (calculate_grid_packing box obj os bs).max_objects
  · cases hbo : (calculate_grid_packing box obj os bs).best_orientation with
    | none =>
        have h0 := calculate_grid_packing_none box obj os bs hbo
        have hnn : (0 : ℤ) ≤ (items.length : ℤ) := Int.ofNat_nonneg _
        omega
    | some o =>
        rw [optimize_packing_result_grid_wins box obj os bs vf items o hwin hbo]
        exact ⟨rfl, by rw [if_pos hbv]⟩
  · rw [optimize_packing_result_solver_wins box obj os bs vf items (not_lt.mp hwin)]
    exact ⟨rfl, by rw [if_pos hbv]⟩

/-- Witness for C2's amended theorem at the counterexample input. -/
theorem optimize_packing_used_volume_formula_witness :
    (optimize_packing_result ⟨10, 10, 10⟩ ⟨10, 10, 10⟩
        .rectangular .rectangular (1/2) []).used_volume
      = round2 (((optimize_packing_result ⟨10, 10, 10⟩ ⟨10, 10, 10⟩
          .rectangular .rectangular (1/2) []).max_objects : ℚ) * (10 * 10 * 10)) :=
  (optimize_packing_used_volume_formula ⟨10, 10, 10⟩ ⟨10, 10, 10⟩
      .rectangular .rectangular (1/2) [] (by norm_num)).1

lemma fitCount_eq_zero (boxAxis objAxis : ℚ) (hb : 0 ≤ boxAxis) (ho : 0 < objAxis)
    (h : boxAxis < objAxis) : fitCount boxAxis objAxis = 0 := by
  unfold fitCount
  rw [if_pos ho, Int.floor_eq_zero_iff]
  exact Set.mem_Ico.mpr ⟨div_nonneg hb (le_of_lt ho), (div_lt_one ho).mpr h⟩

lemma adjustedCount_eq_zero_of_raw_zero (box : Dims) (eff : ℚ) (o : ℚ × ℚ × ℚ)
    (h : rawGridCount box o = 0) : adjustedCount box eff o = 0 := by
  unfold adjustedCount
  rw [h]
  norm_num

lemma calculate_grid_packing_zero_of_all_zero (box obj : Dims) (os bs : ShapeType)
    (h : ∀ o ∈ gridOrientations obj,
        adjustedCount box (combined_efficiency os bs) o = 0) :
    (calculate_grid_packing box obj os bs).max_objects = 0 := by
  have hfst : (calculate_grid_packing box obj os bs).max_objects
      = (gridOrientations obj).foldl
          (fun acc o => max acc (adjustedCount box (combined_efficiency os bs) o)) 0 :=
    gridFold_fst box (combined_efficiency os bs) (gridOrientations obj) 0 none
  rcases foldl_max_cases
      (fun o => adjustedCount box (combined_efficiency os bs) o)
      (gridOrientations obj) 0 with h0 | ⟨o, ho, he⟩
  · rw [hfst, h0]
  · rw [hfst, he]
    exact h o ho

/-- Claim C5 counterexample: a 20×20×20 item cannot fit a 10×10×10 container
in any orientation; the source returns `final_count = 0` and
`used_volume = 0` as the spec says, but `error` is `None` — not a non-empty
descriptive string (optimizer.py line 274 hard-codes `'error': None` on
every non-exception return). -/
theorem optimize_packing_oversize_error_is_none :
    (optimize_packing_result ⟨10, 10, 10⟩ ⟨20, 20, 20⟩
        .rectangular .rectangular 1 []).max_objects = 0 ∧
    (optimize_packing_result ⟨10, 10, 10⟩ ⟨20, 20, 20⟩
        .rectangular .rectangular 1 []).used_volume = 0 ∧
    (optimize_packing_result ⟨10, 10, 10⟩ ⟨20, 20, 20⟩
        .rectangular .rectangular 1 []).error = none := by
  norm_num [optimize_packing_result, calculate_grid_packing, gridFold, gridOrientations,
    adjustedCount, rawGridCount, fitCount, combined_efficiency, get_shape_packing_efficiency,
    round2, roundHalfEven]

/-- Claim C5 (amended): when every axis permutation of the item exceeds the
container on some axis (and the solver consequently places no item), the
result is a zero-count, zero-volume success value whose `error` field is
`None` — the source produces no exception but also no descriptive error
message. -/
theorem optimize_packing_oversize_item (box obj : Dims) (os bs : ShapeType) (vf : ℚ)
    (hbl : 0 < box.length) (hbw : 0 < box.width) (hbh : 0 < box.height)
    (hol : 0 < obj.length) (how : 0 < obj.width) (hoh : 0 < obj.height)
    (hno : ∀ o ∈ gridOrientations obj,
        box.length < o.1 ∨ box.width < o.2.1 ∨ box.height < o.2.2) :
    (calculate_grid_packing box obj os bs).max_objects = 0 ∧
    (optimize_packing_result box obj os bs vf []).max_objects = 0 ∧
    (optimize_packing_result box obj os bs vf []).used_volume = 0 ∧
    (optimize_packing_result box obj os bs vf []).error = none := by
  have hzero : ∀ o ∈ gridOrientations obj,
      adjustedCount box (combined_efficiency os bs) o = 0 := by
    intro o ho
    have hpos : 0 < o.1 ∧ 0 < o.2.1 ∧ 0 < o.2.2 := by
      simp only [gridOrientations, List.mem_cons, List.not_mem_nil, or_false] at ho
      rcases ho with rfl | rfl | rfl | rfl | rfl | rfl <;>
        exact ⟨by assumption, by assumption, by assumption⟩
    apply adjustedCount_eq_zero_of_raw_zero
    unfold rawGridCount
    rcases hno o ho with h | h | h
    · rw [fitCount_eq_zero box.length o.1 (le_of_lt hbl) hpos.1 h]
      ring
    · rw [fitCount_eq_zero box.width o.2.1 (le_of_lt hbw) hpos.2.1 h]
      ring
    · rw [fitCount_eq_zero box.height o.2.2 (le_of_lt hbh) hpos.2.2 h]
      ring
  have hmax : (calculate_grid_packing box obj os bs).max_objects = 0 :=
    calculate_grid_packing_zero_of_all_zero box obj os bs hzero
  have hres := optimize_packing_result_solver_wins box obj os bs vf []
    (by rw [hmax]; exact Int.ofNat_nonneg _)
  refine ⟨hmax, ?_, ?_, ?_⟩ <;> rw [hres] <;> simp [round2_zero]

/-- Witness for C5's amended theorem at the 10×10×10 container with the
20×20×20 item. -/
theorem optimize_packing_oversize_item_witness :
    (calculate_grid_packing ⟨10, 10, 10⟩ ⟨20, 20, 20⟩ .rectangular .rectangular).max_objects = 0 ∧
    (optimize_packing_result ⟨10, 10, 10⟩ ⟨20, 20, 20⟩
        .rectangular .rectangular 1 []).max_objects = 0 ∧
    (optimize_packing_result ⟨10, 10, 10⟩ ⟨20, 20, 20⟩
        .rectangular .rectangular 1 []).used_volume = 0 ∧
    (optimize_packing_result ⟨10, 10, 10⟩ ⟨20, 20, 20⟩
        .rectangular .rectangular 1 []).error = none :=
  optimize_packing_oversize_item ⟨10, 10, 10⟩ ⟨20, 20, 20⟩ .rectangular .rectangular 1
    (by norm_num) (by norm_num) (by norm_num) (by norm_num) (by norm_num) (by norm_num)
    (by norm_num [gridOrientations])

/-- For any present file the extractor cascade always produces a result. -/
lemma get_stp_dimensions_some (f : FileModel) (hp : f.present = true) :
    ∃ d, get_stp_dimensions f = some d := by
  unfold get_stp_dimensions
  rw [hp, if_neg (by simp : ¬ (true = false))]
  split
  · exact ⟨_, rfl⟩
  · split
    · split
      · exact ⟨_, rfl⟩
      · exact ⟨_, rfl⟩
    · split
      · exact ⟨_, rfl⟩
      · exact ⟨_, rfl⟩

/-- Claim C7: the outer exception handler of `optimize_packing` converts any
internal failure into a zero-count result carrying the exception text and
passes normal results through unchanged, and `get_stp_dimensions` returns
`None` exactly when the geometry source does not exist — for any present
file every cascade path yields dimensions. -/
theorem optimize_packing_never_raises_and_loader_total :
    (∀ e : String,
        (optimize_packing_guarded (.error e)).max_objects = 0 ∧
        (optimize_packing_guarded (.error e)).used_volume = 0 ∧
        (optimize_packing_guarded (.error e)).error = some e) ∧
    (∀ r : PackResult, optimize_packing_guarded (.ok r) = r) ∧
    (∀ f : FileModel, get_stp_dimensions f = none ↔ f.present = false) := by
  refine ⟨fun e => ⟨rfl, rfl, rfl⟩, fun r => rfl, fun f => ?_⟩
  constructor
  · intro h
    cases hp : f.present with
    | false => rfl
    | true =>
        rcases get_stp_dimensions_some f hp with ⟨d, hd⟩
        rw [hd] at h
        cases h
  · intro h
    unfold get_stp_dimensions
    rw [if_pos h]

/-- Witness for C7 at a concrete exception text and a concrete missing
file. -/
theorem optimize_packing_never_raises_witness :
    (optimize_packing_guarded (.error "division by zero")).max_objects = 0 ∧
    get_stp_dimensions
        { present := false, size := 0, filenameDims := none, isStpExt := false,
          readable := false, commentDims := none, points := [],
          contentGeom := .otherOrNone, contentShape := .unknown,
          contentShapeFactor := 1, patternMatch := none }
      = none :=
  ⟨(optimize_packing_never_raises_and_loader_total.1 "division by zero").1,
   (optimize_packing_never_raises_and_loader_total.2.2 _).mpr rfl⟩

/-- Claim C6 counterexample: the filename regex
`(\d+(?:\.\d+)?)x(\d+(?:\.\d+)?)x(\d+(?:\.\d+)?)` admits the digit string
`0`, so a file named e.g. `box_0x80x60.stp` takes the filename-encoded path
(stp_loader.py lines 30-39) and the extractor returns `length = 0`,
violating the strict-positivity claim. -/
theorem get_stp_dimensions_zero_axis :
    get_stp_dimensions
        { present := true, size := 1234,
          filenameDims := some (⟨0, 0, 0⟩, ⟨80, 0, 0⟩, ⟨60, 0, 0⟩),
          isStpExt := true, readable := true, commentDims := none,
          points := [], contentGeom := .otherOrNone,
          contentShape := .rectangular, contentShapeFactor := 1,
          patternMatch := none }
      = some ⟨0, 80, 60, .rectangular, 1⟩ := by
  norm_num [get_stp_dimensions, Decimal.val]

lemma pointCloudDims_pos (p : ℚ × ℚ × ℚ) (rest : List (ℚ × ℚ × ℚ)) :
    0 < (pointCloudDims p rest).length ∧ 0 < (pointCloudDims p rest).width ∧
    0 < (pointCloudDims p rest).height := by
  refine ⟨?_, ?_, ?_⟩ <;>
    exact lt_of_lt_of_le zero_lt_one (le_max_right _ 1)

lemma analyze_stp_geometry_pos (pts : List (ℚ × ℚ × ℚ)) (geom : StpContentGeom) (size : ℕ) :
    0 < (analyze_stp_geometry pts geom size).length ∧
    0 < (analyze_stp_geometry pts geom size).width ∧
    0 < (analyze_stp_geometry pts geom size).height := by
  cases pts with
  | cons p rest => exact pointCloudDims_pos p rest
  | nil =>
      have h300 : (0 : ℚ) < ((50 + size % 300 : ℕ) : ℚ) := by
        exact_mod_cast (by omega : 0 < 50 + size % 300)
      have h200 : (0 : ℚ) < ((50 + size % 200 : ℕ) : ℚ) := by
        exact_mod_cast (by omega : 0 < 50 + size % 200)
      cases geom <;>
        exact ⟨mul_pos (by assumption) (by norm_num),
               mul_pos (by assumption) (by norm_num),
               by first
                  | exact mul_pos (by assumption) (by norm_num)
                  | assumption⟩

lemma patternDims_pos (p : ComplexPattern) :
    0 < (patternDims p).length ∧ 0 < (patternDims p).width ∧ 0 < (patternDims p).height := by
  cases p <;> norm_num [patternDims]

lemma sizeFallbackDims_pos (size : ℕ) :
    0 < (sizeFallbackDims size).length ∧ 0 < (sizeFallbackDims size).width ∧
    0 < (sizeFallbackDims size).height := by
  have h : (0 : ℚ) < ((50 + size % 500 : ℕ) : ℚ) := by
    exact_mod_cast (by omega : 0 < 50 + size % 500)
  exact ⟨mul_pos h (by norm_num), mul_pos h (by norm_num), h⟩

/-- Claim C6 (amended): every extractor path yields strictly positive axes,
except that the filename-encoded and metadata-comment paths copy the parsed
numerals verbatim — their output is positive exactly when the encoded
numerals are positive (the regexes admit `0`). -/
theorem get_stp_dimensions_positive (f : FileModel) (d : StpDims)
    (hd : get_stp_dimensions f = some d)
    (hfn : ∀ a b c : Decimal, f.filenameDims = some (a, b, c) →
        0 < a.val ∧ 0 < b.val ∧ 0 < c.val)
    (hcm : ∀ a b c : Decimal, f.commentDims = some (a, b, c) →
        0 < a.val ∧ 0 < b.val ∧ 0 < c.val) :
    0 < d.length ∧ 0 < d.width ∧ 0 < d.height := by
  unfold get_stp_dimensions at hd
  by_cases hp : f.present = false
  · rw [if_pos hp] at hd
    cases hd
  · rw [if_neg hp] at hd
    rcases hfd : f.filenameDims with _ | ⟨a, b, c⟩
    · rw [hfd] at hd
      by_cases hs : (f.isStpExt && f.readable) = true
      · rw [if_pos hs] at hd
        rcases hcd : f.commentDims with _ | ⟨a, b, c⟩
        · rw [hcd] at hd
          injection hd with hd'
          subst hd'
          exact analyze_stp_geometry_pos f.points f.contentGeom f.size
        · rw [hcd] at hd
          injection hd with hd'
          subst hd'
          exact hcm a b c hcd
      · rw [if_neg hs] at hd
        rcases hpm : f.patternMatch with _ | p
        · rw [hpm] at hd
          injection hd with hd'
          subst hd'
          exact sizeFallbackDims_pos f.size
        · rw [hpm] at hd
          injection hd with hd'
          subst hd'
          exact patternDims_pos p
    · rw [hfd] at hd
      injection hd with hd'
      subst hd'
      exact hfn a b c hfd

/-- Witness for C6's amended theorem: the size-fallback path for a 7-byte
file without any richer geometry yields strictly positive axes. -/
theorem get_stp_dimensions_positive_witness :
    0 < (sizeFallbackDims 7).length ∧ 0 < (sizeFallbackDims 7).width ∧
    0 < (sizeFallbackDims 7).height :=
  get_stp_dimensions_positive
    { present := true, size := 7, filenameDims := none, isStpExt := false,
      readable := false, commentDims := none, points := [],
      contentGeom := .otherOrNone, contentShape := .unknown,
      contentShapeFactor := 8/10, patternMatch := none }
    (sizeFallbackDims 7) rfl
    (fun a b c h => Option.noConfusion h)
    (fun a b c h => Option.noConfusion h)

/-- Claim C9: for every cross-section point set (the caller only forms
sections with more than 5 points, stp_loader.py lines 557-561), the
classifier maps the convex-hull vertex count of the section to the shape
profile exactly as listed: ≤4 rectangular (1.0), 5 pentagonal (0.688),
6 hexagonal (0.866), 8 octagonal (0.828), ≥12 circular (0.785), any other
count generic polygonal (0.75). -/
theorem detect_polygon_classification (pts : List (ℚ × ℚ)) (hlen : 5 < pts.length) :
    ((compute_convex_hull pts).length ≤ 4 →
        detect_polygon_from_points pts = (.rectangular, 1)) ∧
    ((compute_convex_hull pts).length = 5 →
        detect_polygon_from_points pts = (.pentagonal, 688/1000)) ∧
    ((compute_convex_hull pts).length = 6 →
        detect_polygon_from_points pts = (.hexagonal, 866/1000)) ∧
    ((compute_convex_hull pts).length = 8 →
        detect_polygon_from_points pts = (.octagonal, 828/1000)) ∧
    (12 ≤ (compute_convex_hull pts).length →
        detect_polygon_from_points pts = (.circular, 785/1000)) ∧
    ((compute_convex_hull pts).length = 7 ∨ (compute_convex_hull pts).length = 9 ∨
        (compute_convex_hull pts).length = 10 ∨ (compute_convex_hull pts).length = 11 →
        detect_polygon_from_points pts = (.polygonal, 75/100)) := by
  have hnot : ¬ pts.length < 6 := by omega
  refine ⟨fun h => ?_, fun h => ?_, fun h => ?_, fun h => ?_, fun h => ?_, fun h => ?_⟩ <;>
    simp only [detect_polygon_from_points] <;>
    rw [if_neg hnot]
  · rw [if_pos h]
  · rw [if_neg (by omega), if_pos h]
  · rw [if_neg (by omega), if_neg (by omega), if_pos h]
  · rw [if_neg (by omega), if_neg (by omega), if_neg (by omega), if_pos h]
  · rw [if_neg (by omega), if_neg (by omega), if_neg (by omega), if_neg (by omega),
      if_pos h]
  · rw [if_neg (by omega), if_neg (by omega), if_neg (by omega), if_neg (by omega),
      if_neg (by omega)]

/-- Witness for C9 on three concrete cross-sections run through the Graham
scan: a hexagon with an interior point, a rectangle with two interior
points, and a 12-gon inscribed in a circle of radius 25. -/
theorem detect_polygon_classification_witness :
    detect_polygon_from_points [(0, 0), (2, -1), (4, 0), (4, 2), (2, 3), (0, 2), (2, 1)]
      = (.hexagonal, 866/1000) ∧
    detect_polygon_from_points [(0, 0), (3, 0), (3, 2), (0, 2), (1, 1), (2, 1)]
      = (.rectangular, 1) ∧
    detect_polygon_from_points [(25, 0), (24, 7), (15, 20), (7, 24), (0, 25), (-15, 20),
        (-24, 7), (-25, 0), (-20, -15), (0, -25), (20, -15), (24, -7)]
      = (.circular, 785/1000) :=
  ⟨(detect_polygon_classification _ (by norm_num)).2.2.1
      (by norm_num [compute_convex_hull, sortedUnique, insertPt, buildHalfHull, chainStep,
        cross2d, Prod.ext_iff, -Prod.mk_zero_zero]),
   (detect_polygon_classification _ (by norm_num)).1
      (by norm_num [compute_convex_hull, sortedUnique, insertPt, buildHalfHull, chainStep,
        cross2d, Prod.ext_iff, -Prod.mk_zero_zero]),
   (detect_polygon_classification _ (by norm_num)).2.2.2.2.1
      (by norm_num [compute_convex_hull, sortedUnique, insertPt, buildHalfHull, chainStep,
        cross2d, Prod.ext_iff, -Prod.mk_zero_zero])⟩

lemma length_flatMap_const {α β : Type} (l : List α) (f : α → List β) (n : ℕ)
    (h : ∀ a ∈ l, (f a).length = n) : (l.flatMap f).length = l.length * n := by
  induction l with
  | nil => simp
  | cons a rest ih =>
      rw [List.flatMap_cons, List.length_append, h a (List.mem_cons_self a rest),
        ih (fun b hb => h b (List.mem_cons_of_mem a hb)), List.length_cons]
      ring

lemma generate_grid_layout_length (box : Dims) (o : ℚ × ℚ × ℚ) :
    (generate_grid_layout box o).length
      = (fitCount box.length o.1).toNat * (fitCount box.width o.2.1).toNat
        * (fitCount box.height o.2.2).toNat := by
  unfold generate_grid_layout
  rw [length_flatMap_const _ _
      ((fitCount box.width o.2.1).toNat * (fitCount box.length o.1).toNat),
    List.length_range]
  · ring
  · intro z hz
    rw [length_flatMap_const _ _ (fitCount box.length o.1).toNat, List.length_range]
    intro y hy
    rw [List.length_map, List.length_range]

lemma generate_grid_layout_mem (box : Dims) (o : ℚ × ℚ × ℚ) (it : PlacedItem) :
    it ∈ generate_grid_layout box o ↔
      ∃ k < (fitCount box.height o.2.2).toNat,
        ∃ j < (fitCount box.width o.2.1).toNat,
          ∃ i < (fitCount box.length o.1).toNat,
            it = { pos := ((i : ℚ) * o.1, (j : ℚ) * o.2.1, (k : ℚ) * o.2.2),
                   dims := o, rotation_type := 0 } := by
  simp only [generate_grid_layout, List.mem_flatMap, List.mem_map, List.mem_range]
  constructor
  · rintro ⟨k, hk, j, hj, i, hi, rfl⟩
    exact ⟨k, hk, j, hj, i, hi, rfl⟩
  · rintro ⟨k, hk, j, hj, i, hi, rfl⟩
    exact ⟨k, hk, j, hj, i, hi, rfl⟩

/-- Claim C10: when the grid estimate wins, the synthesized placement list
contains exactly `fit_x * fit_y * fit_z` items (the raw per-axis fit product
of the best orientation) at positions `(i*item_x, j*item_y, k*item_z)`;
consequently, whenever the combined efficiency is below 1, the number of
returned placements strictly exceeds the returned `max_objects` (which is
the efficiency-adjusted floor, not the laid-out cell count). -/
theorem grid_layout_spec :
    (∀ (box : Dims) (o : ℚ × ℚ × ℚ),
        (generate_grid_layout box o).length
          = (fitCount box.length o.1).toNat * (fitCount box.width o.2.1).toNat
            * (fitCount box.height o.2.2).toNat) ∧
    (∀ (box : Dims) (o : ℚ × ℚ × ℚ) (it : PlacedItem),
        it ∈ generate_grid_layout box o ↔
          ∃ k < (fitCount box.height o.2.2).toNat,
            ∃ j < (fitCount box.width o.2.1).toNat,
              ∃ i < (fitCount box.length o.1).toNat,
                it = { pos := ((i : ℚ) * o.1, (j : ℚ) * o.2.1, (k : ℚ) * o.2.2),
                       dims := o, rotation_type := 0 }) ∧
    (∀ (box obj : Dims) (os bs : ShapeType) (vf : ℚ) (items : List PlacedItem)
        (o : ℚ × ℚ × ℚ),
        0 < box.length → 0 < box.width → 0 < box.height →
        (items.length : ℤ) < (calculate_grid_packing box obj os bs).max_objects →
        (calculate_grid_packing box obj os bs).best_orientation = some o →
        (optimize_packing_result box obj os bs vf items).placements
            = generate_grid_layout box o ∧
        ((generate_grid_layout box o).length : ℤ) = rawGridCount box o ∧
        (combined_efficiency os bs < 1 →
          (optimize_packing_result box obj os bs vf items).max_objects
            < ((optimize_packing_result box obj os bs vf items).placements.length : ℤ))) := by
  refine ⟨generate_grid_layout_length, generate_grid_layout_mem, ?_⟩
  intro box obj os bs vf items o hbl hbw hbh hwin hbo
  have hres := optimize_packing_result_grid_wins box obj os bs vf items o hwin hbo
  have hf1 : 0 ≤ fitCount box.length o.1 := fitCount_nonneg _ _ (le_of_lt hbl)
  have hf2 : 0 ≤ fitCount box.width o.2.1 := fitCount_nonneg _ _ (le_of_lt hbw)
  have hf3 : 0 ≤ fitCount box.height o.2.2 := fitCount_nonneg _ _ (le_of_lt hbh)
  have hlen : ((generate_grid_layout box o).length : ℤ) = rawGridCount box o := by
    rw [generate_grid_layout_length]
    unfold rawGridCount
    push_cast [Int.toNat_of_nonneg hf1, Int.toNat_of_nonneg hf2, Int.toNat_of_nonneg hf3]
    ring
  refine ⟨by rw [hres], hlen, ?_⟩
  intro heff
  rw [hres]
  show (calculate_grid_packing box obj os bs).max_objects
      < ((generate_grid_layout box o).length : ℤ)
  rw [hlen, calculate_grid_packing_some box obj os bs o hbo]
  have hadj : 1 ≤ adjustedCount box (combined_efficiency os bs) o := by
    have hcnt := calculate_grid_packing_some box obj os bs o hbo
    have hnn : (0 : ℤ) ≤ (items.length : ℤ) := Int.ofNat_nonneg _
    omega
  have heffpos := combined_efficiency_pos os bs
  have hraw : 1 ≤ rawGridCount box o := by
    by_contra hcon
    push_neg at hcon
    have hle : rawGridCount box o ≤ 0 := by omega
    have hle2 : adjustedCount box (combined_efficiency os bs) o ≤ 0 := by
      unfold adjustedCount
      have hq : (rawGridCount box o : ℚ) * combined_efficiency os bs ≤ 0 :=
        mul_nonpos_of_nonpos_of_nonneg (by exact_mod_cast hle) (le_of_lt heffpos)
      calc Int.floor ((rawGridCount box o : ℚ) * combined_efficiency os bs)
          ≤ Int.floor (0 : ℚ) := Int.floor_le_floor hq
        _ = 0 := Int.floor_zero
    omega
  have hrawq : (0 : ℚ) < (rawGridCount box o : ℚ) := by exact_mod_cast hraw
  have hlt : (rawGridCount box o : ℚ) * combined_efficiency os bs
      < (rawGridCount box o : ℚ) :=
    mul_lt_of_lt_one_right hrawq heff
  unfold adjustedCount
  exact Int.floor_lt.mpr hlt

/-- Witness for C10: a 10×10×10 container, a 5×5×5 item, combined
efficiency 0.85 (cylindrical item in a rectangular container): the grid
lays out 8 cells while reporting `max_objects = floor(8·0.85) = 6`. -/
theorem grid_layout_spec_witness :
    (optimize_packing_result ⟨10, 10, 10⟩ ⟨5, 5, 5⟩ .cylindrical .rectangular 1 []).placements
        = generate_grid_layout ⟨10, 10, 10⟩ (5, 5, 5) ∧
    ((generate_grid_layout ⟨10, 10, 10⟩ (5, 5, 5)).length : ℤ)
        = rawGridCount ⟨10, 10, 10⟩ (5, 5, 5) ∧
    (optimize_packing_result ⟨10, 10, 10⟩ ⟨5, 5, 5⟩ .cylindrical .rectangular 1 []).max_objects
        < ((optimize_packing_result ⟨10, 10, 10⟩ ⟨5, 5, 5⟩
            .cylindrical .rectangular 1 []).placements.length : ℤ) :=
  have h := grid_layout_spec.2.2 ⟨10, 10, 10⟩ ⟨5, 5, 5⟩ .cylindrical .rectangular 1 []
    (5, 5, 5) (by norm_num) (by norm_num) (by norm_num)
    (by norm_num [calculate_grid_packing, gridFold, gridOrientations, adjustedCount,
      rawGridCount, fitCount, combined_efficiency, get_shape_packing_efficiency])
    (by norm_num [calculate_grid_packing, gridFold, gridOrientations, adjustedCount,
      rawGridCount, fitCount, combined_efficiency, get_shape_packing_efficiency])
  ⟨h.1, h.2.1, h.2.2 (by norm_num [combined_efficiency, get_shape_packing_efficiency])⟩
